import Mathlib

/-!
Shallow embedding of `alvr/dashboard/src/dashboard/components/notifications.rs`
(the `NotificationBar` component of the ALVR dashboard) together with proofs
about its admission, preemption, timeout-decay and tip-selection logic.

Modelling conventions:
* Time is a natural number of milliseconds from a monotonic clock;
  `Instant::now()` becomes an explicit `now` argument to each operation.
* The random draw behind `slice::choose(&mut rand::rng())` and the
  `cfg!(debug_assertions)` build flag are explicit arguments.
* Only the state-mutating part of `ui` is modelled; the egui styling and
  layout code is pure presentation and owns no state other than the
  `expanded` toggle, whose user-driven flip is modelled by a `clicked` input.
-/

/-- Modelled from the spec: `alvr_common::LogSeverity` (defined outside the
given sources); an ordered enumeration with `Debug < Info < Warning < Error`. -/
inductive LogSeverity where
  | Debug
  | Info
  | Warning
  | Error
deriving DecidableEq

/-- Rank of a severity in the total order `Debug < Info < Warning < Error`. -/
def LogSeverity.toNat : LogSeverity → Nat
  | .Debug => 0
  | .Info => 1
  | .Warning => 2
  | .Error => 3

instance : LE LogSeverity := ⟨fun a b => a.toNat ≤ b.toNat⟩

instance : LT LogSeverity := ⟨fun a b => a.toNat < b.toNat⟩

instance (a b : LogSeverity) : Decidable (a ≤ b) := Nat.decLe a.toNat b.toNat

instance (a b : LogSeverity) : Decidable (a < b) := Nat.decLt a.toNat b.toNat

theorem LogSeverity.le_def (a b : LogSeverity) : a ≤ b ↔ a.toNat ≤ b.toNat := Iff.rfl

theorem LogSeverity.lt_def (a b : LogSeverity) : a < b ↔ a.toNat < b.toNat := Iff.rfl

/-- Modelled from the spec: `alvr_common::LogEntry` (defined outside the given
sources), restricted to the two fields this component reads. -/
structure LogEntry where
  content : String
  severity : LogSeverity
deriving DecidableEq

/-- Modelled from the spec: the slice of `alvr_session::Settings` (defined
outside the given sources) that `update_settings` reads, namely
`settings.extra.logging.notification_level` and
`settings.extra.logging.show_notification_tip`. -/
structure LoggingConfig where
  notification_level : LogSeverity
  show_notification_tip : Bool
deriving DecidableEq

/-- Display timeout in milliseconds (`TIMEOUT: Duration = Duration::from_secs(5)`). -/
def TIMEOUT : Nat := 5000

/-- The fixed idle string (`NO_NOTIFICATIONS_MESSAGE`). -/
def NO_NOTIFICATIONS_MESSAGE : String := "No new notifications"

/-- The fixed tip catalog (`NOTIFICATION_TIPS`). -/
def NOTIFICATION_TIPS : List String := [
  "If you started having crashes after changing some settings, reset ALVR by re-running \"Run setup wizard\" from the \"Installation\" tab and clicking \"Reset settings\".",
  "Some settings are hidden by default. Click the \"Expand\" button next to some settings to expand the submenus.",
  "It\x27s highly advisable to keep audio settings as default in ALVR and modify the default audio device in the taskbar tray.",
  "Increasing \"Video\"->\"Maximum buffering\" may reduce stutters at the cost of more latency.",
  "Sometimes switching between h264 and HEVC codecs is necessary on certain GPUs to fix crashing or fallback to software encoding.",
  "If you\x27re using an NVIDIA GPU, it\x27s best to use high-bitrate H264; if you\x27re using an AMD GPU, HEVC might look better.",
  "If you experience \"white snow\" flickering, set \"Presets\"->\"Resolution\" to \"Low\" and disable \"Video\"->\"Foveated encoding\".",
  "Increasing \"Video\"->\"Color correction\"->\"Sharpness\" may improve the perceived image quality.",
  "If you have problems syncing external controllers or trackers to ALVR tracking space, add one element to \"Headset\"->\"Extra OpenVR properties\", then set a custom \"Tracking system name string\".",
  "To change the visual appearance of controllers, set \"Headset\"->\"Controllers\"->\"Emulation mode\".",
  "ALVR supports custom button bindings! If you need help, please ask us on our Discord server.",
  "ALVR supports hand tracking gestures (\"Presets\"->\"Hand tracking interaction\"->\"ALVR bindings\"). Check out wiki how to use them properly: https://github.com/alvr-org/ALVR/wiki/Hand-tracking-controller-bindings.",
  "If hand tracking gestures are annoying, you can disable them in \"Headset\"->\"Controllers\"->\"Hand tracking interaction\". Alternatively, you can enable \"Hand tracking interaction\"->\"Only touch\".",
  "You can fine-tune the controllers\x27 responsiveness with \"Headset\"->\"Controllers\"->\"Prediction\".",
  "If the visual controller/hand models do not match the physical controller\x27s position, you can tweak the offset in \"Headset\"->\"Controllers\"->\"Left controller position/rotation offset\" (affects both controllers).",
  "When using external trackers or controllers, you should set both \"Headset\"->\"Position/Rotation recentering mode\" to \"Disabled\".",
  "You can enable tilt mode. Set \"Headset\"->\"Position recentering mode\" to \"Local\" and \"Headset\"->\"Rotation recentering mode\" to \"Tilted\".",
  "If you often experience image glitching, you can trade that with stutter frames using \"Connection\"->\"Avoid video glitching\".",
  "You can run custom commands/programs at headset connection/disconnection using \"Connection\"->\"Enable on connect/disconnect script\".",
  "In case you want to report a bug, to get a log file, enable \"Extra\"->\"Logging\"->\"Log to disk\". The log will be inside \"session_log.txt\".",
  "For hacking purposes, you can enable \"Extra\"->\"Logging\"->\"Log tracking\", \"Log button presses\" and \"Log haptics\". You can get the data using a websocket at ws://localhost:8082/api/events.",
  "In case you want to report a bug and share your log, you should enable \"Extra\"->\"Logging\"->\"Prefer backtrace\".",
  "You can quickly cycle through tips like this one by toggling \"Extra\"->\"Logging\"->\"Show notification tip\".",
  "It\x27s handy to enable \"Extra\"->\"SteamVR Launcher\"->\"Open and close SteamVR automatically\".",
  "If you want to share a video recording for reporting a bug, you can enable \"Extra\"->\"Capture\"->\"Rolling video files\" to limit the file size of the upload.",
  "If your headset does not appear in the device list, it might be in a different subnet. Try \"Add device manually\" with IP shown from inside device."]

/-- The state of the `NotificationBar` component. -/
structure NotificationBar where
  message : String
  current_level : LogSeverity
  receive_instant : Nat
  min_notification_level : LogSeverity
  tip_message : Option String
  expanded : Bool
deriving DecidableEq

/-- `NotificationBar::new`, with `Instant::now()` passed explicitly. -/
def NotificationBar.new (now : Nat) : NotificationBar where
  message := NO_NOTIFICATIONS_MESSAGE
  current_level := .Debug
  receive_instant := now
  min_notification_level := .Debug
  tip_message := none
  expanded := false

/-- Models `slice::choose(&mut rng)`: `none` on an empty slice, otherwise the
element at an rng-determined index; the rng draw is the explicit `rng` input. -/
def listChoose (rng : Nat) (l : List String) : Option String :=
  if h : l.length = 0 then none
  else some (l.get ⟨rng % l.length, Nat.mod_lt rng (Nat.pos_of_ne_zero h)⟩)

/-- `NotificationBar::update_settings`, with the rng draw passed explicitly. -/
def NotificationBar.update_settings (s : NotificationBar) (settings : LoggingConfig)
    (rng : Nat) : NotificationBar :=
  let s1 := { s with min_notification_level := settings.notification_level }
  if settings.show_notification_tip then
    if s1.tip_message = none then
      { s1 with tip_message := (listChoose rng NOTIFICATION_TIPS).map (fun t => "Tip: " ++ t) }
    else
      s1
  else
    { s1 with tip_message := none }

/-- The effective minimum severity computed at the top of `push_notification`;
`debug_assertions` is the `cfg!(debug_assertions)` build flag, an explicit
compile-time input. -/
def min_severity (from_dashboard debug_assertions : Bool)
    (min_notification_level : LogSeverity) : LogSeverity :=
  if from_dashboard then
    if debug_assertions then .Debug else .Info
  else
    min_notification_level

/-- The acceptance condition of `push_notification`: admission
(`event.severity >= min_severity`) and preemption-or-expiry
(`now > self.receive_instant + TIMEOUT || event.severity >= self.current_level`). -/
def PushCond (s : NotificationBar) (now : Nat) (event : LogEntry)
    (from_dashboard debug_assertions : Bool) : Prop :=
  min_severity from_dashboard debug_assertions s.min_notification_level ≤ event.severity
    ∧ (s.receive_instant + TIMEOUT < now ∨ s.current_level ≤ event.severity)

instance (s : NotificationBar) (now : Nat) (e : LogEntry) (fd dbg : Bool) :
    Decidable (PushCond s now e fd dbg) :=
  inferInstanceAs (Decidable (_ ≤ _ ∧ (_ < _ ∨ _ ≤ _)))

/-- `NotificationBar::push_notification`, with `Instant::now()` and the build
flag passed explicitly. -/
def NotificationBar.push_notification (s : NotificationBar) (now : Nat) (event : LogEntry)
    (from_dashboard debug_assertions : Bool) : NotificationBar :=
  if PushCond s now event from_dashboard debug_assertions then
    { s with
        message := event.content
        current_level := event.severity
        receive_instant := now }
  else
    s

/-- The state-mutating part of `NotificationBar::ui`: the timeout-decay check
followed by the Expand/Reduce control, whose click (fed back by the renderer)
toggles `expanded`.  The colors and layout computed from `current_level` and
`expanded` are pure presentation and are not modelled. -/
def NotificationBar.ui (s : NotificationBar) (now : Nat) (clicked : Bool) : NotificationBar :=
  let s1 :=
    if s.receive_instant + TIMEOUT < now then
      { s with
          message := s.tip_message.getD NO_NOTIFICATIONS_MESSAGE
          current_level := .Debug }
    else
      s
  if clicked then { s1 with expanded := !s1.expanded } else s1

/-- Ghost-instrumented reachability: `Reach s o` holds when `s` arises from
construction by some sequence of the component's operations, with `o`
recording the event that produced the currently displayed `message`
(`none` when the message is the idle or tip fallback). -/
inductive Reach : NotificationBar → Option LogEntry → Prop where
  | init (now : Nat) : Reach (NotificationBar.new now) none
  | settings {s : NotificationBar} {o : Option LogEntry} (cfg : LoggingConfig) (rng : Nat) :
      Reach s o → Reach (s.update_settings cfg rng) o
  | push_acc {s : NotificationBar} {o : Option LogEntry} (now : Nat) (e : LogEntry)
      (fd dbg : Bool) : Reach s o → PushCond s now e fd dbg →
      Reach (s.push_notification now e fd dbg) (some e)
  | push_rej {s : NotificationBar} {o : Option LogEntry} (now : Nat) (e : LogEntry)
      (fd dbg : Bool) : Reach s o → ¬PushCond s now e fd dbg →
      Reach (s.push_notification now e fd dbg) o
  | tick_decay {s : NotificationBar} {o : Option LogEntry} (now : Nat) (c : Bool) :
      Reach s o → s.receive_instant + TIMEOUT < now → Reach (s.ui now c) none
  | tick_live {s : NotificationBar} {o : Option LogEntry} (now : Nat) (c : Bool) :
      Reach s o → ¬(s.receive_instant + TIMEOUT < now) → Reach (s.ui now c) o

/-- Auxiliary invariant: `tip_message` is absent or is a catalog tip with the
constant `Tip: ` label prefixed. -/
def TipOk (s : NotificationBar) : Prop :=
  s.tip_message = none ∨ ∃ t ∈ NOTIFICATION_TIPS, s.tip_message = some ("Tip: " ++ t)

/-- The claimed relation between `current_level`, `message` and the event (if
any) that produced the current message. -/
def OriginOk (s : NotificationBar) : Option LogEntry → Prop
  | some e => s.message = e.content ∧ s.current_level = e.severity
  | none => s.current_level = .Debug ∧
      (s.message = NO_NOTIFICATIONS_MESSAGE ∨ ∃ t ∈ NOTIFICATION_TIPS, s.message = "Tip: " ++ t)


theorem listChoose_mem {rng : Nat} {l : List String} {x : String}
    (h : listChoose rng l = some x) : x ∈ l := by
  unfold listChoose at h
  split at h
  · exact absurd h (by simp)
  · exact Option.some_injective _ h ▸ l.get_mem _ _

theorem listChoose_of_ne_nil (rng : Nat) {l : List String} (h : l.length ≠ 0) :
    ∃ x ∈ l, listChoose rng l = some x := by
  refine ⟨l.get ⟨rng % l.length, Nat.mod_lt rng (Nat.pos_of_ne_zero h)⟩, l.get_mem _ _, ?_⟩
  unfold listChoose
  simp [h]

theorem NOTIFICATION_TIPS_length_ne_zero : NOTIFICATION_TIPS.length ≠ 0 := by
  decide

theorem update_settings_message (s : NotificationBar) (cfg : LoggingConfig) (rng : Nat) :
    (s.update_settings cfg rng).message = s.message := by
  obtain ⟨lvl, tf⟩ := cfg
  cases tf <;> cases htm : s.tip_message <;> simp [NotificationBar.update_settings, htm]

theorem update_settings_current_level (s : NotificationBar) (cfg : LoggingConfig) (rng : Nat) :
    (s.update_settings cfg rng).current_level = s.current_level := by
  obtain ⟨lvl, tf⟩ := cfg
  cases tf <;> cases htm : s.tip_message <;> simp [NotificationBar.update_settings, htm]

theorem update_settings_receive_instant (s : NotificationBar) (cfg : LoggingConfig) (rng : Nat) :
    (s.update_settings cfg rng).receive_instant = s.receive_instant := by
  obtain ⟨lvl, tf⟩ := cfg
  cases tf <;> cases htm : s.tip_message <;> simp [NotificationBar.update_settings, htm]

theorem update_settings_expanded (s : NotificationBar) (cfg : LoggingConfig) (rng : Nat) :
    (s.update_settings cfg rng).expanded = s.expanded := by
  obtain ⟨lvl, tf⟩ := cfg
  cases tf <;> cases htm : s.tip_message <;> simp [NotificationBar.update_settings, htm]

theorem update_settings_min_level (s : NotificationBar) (cfg : LoggingConfig) (rng : Nat) :
    (s.update_settings cfg rng).min_notification_level = cfg.notification_level := by
  obtain ⟨lvl, tf⟩ := cfg
  cases tf <;> cases htm : s.tip_message <;> simp [NotificationBar.update_settings, htm]

theorem update_settings_tip_message (s : NotificationBar) (cfg : LoggingConfig) (rng : Nat) :
    (s.update_settings cfg rng).tip_message =
      if cfg.show_notification_tip then
        if s.tip_message = none then
          (listChoose rng NOTIFICATION_TIPS).map (fun t => "Tip: " ++ t)
        else s.tip_message
      else none := by
  obtain ⟨lvl, tf⟩ := cfg
  cases tf <;> cases htm : s.tip_message <;> simp [NotificationBar.update_settings, htm]

theorem ui_receive_instant (s : NotificationBar) (now : Nat) (c : Bool) :
    (s.ui now c).receive_instant = s.receive_instant := by
  by_cases hd : s.receive_instant + TIMEOUT < now <;> cases c <;> simp [NotificationBar.ui, hd]

theorem ui_tip_message (s : NotificationBar) (now : Nat) (c : Bool) :
    (s.ui now c).tip_message = s.tip_message := by
  by_cases hd : s.receive_instant + TIMEOUT < now <;> cases c <;> simp [NotificationBar.ui, hd]

theorem ui_min_level (s : NotificationBar) (now : Nat) (c : Bool) :
    (s.ui now c).min_notification_level = s.min_notification_level := by
  by_cases hd : s.receive_instant + TIMEOUT < now <;> cases c <;> simp [NotificationBar.ui, hd]

theorem ui_message (s : NotificationBar) (now : Nat) (c : Bool) :
    (s.ui now c).message =
      if s.receive_instant + TIMEOUT < now then s.tip_message.getD NO_NOTIFICATIONS_MESSAGE
      else s.message := by
  by_cases hd : s.receive_instant + TIMEOUT < now <;> cases c <;> simp [NotificationBar.ui, hd]

theorem ui_current_level (s : NotificationBar) (now : Nat) (c : Bool) :
    (s.ui now c).current_level =
      if s.receive_instant + TIMEOUT < now then LogSeverity.Debug else s.current_level := by
  by_cases hd : s.receive_instant + TIMEOUT < now <;> cases c <;> simp [NotificationBar.ui, hd]

theorem update_settings_tip_ok {s : NotificationBar} {cfg : LoggingConfig} {rng : Nat} :
    TipOk s → TipOk (s.update_settings cfg rng) := by
  intro h
  unfold TipOk
  rw [update_settings_tip_message]
  split
  · split
    · obtain ⟨x, hx, hcx⟩ := listChoose_of_ne_nil rng NOTIFICATION_TIPS_length_ne_zero
      exact Or.inr ⟨x, hx, by simp [hcx]⟩
    · exact h
  · exact Or.inl rfl

theorem reach_inv {s : NotificationBar} {o : Option LogEntry} (h : Reach s o) :
    OriginOk s o ∧ TipOk s := by
  induction h with
  | init now =>
      exact ⟨⟨rfl, Or.inl rfl⟩, Or.inl rfl⟩
  | settings cfg rng _ ih =>
      refine ⟨?_, update_settings_tip_ok ih.2⟩
      rename_i s o _
      cases o with
      | some e =>
          exact ⟨(update_settings_message s cfg rng).trans ih.1.1,
            (update_settings_current_level s cfg rng).trans ih.1.2⟩
      | none =>
          exact ⟨(update_settings_current_level s cfg rng).trans ih.1.1,
            (update_settings_message s cfg rng) ▸ ih.1.2⟩
  | push_acc now e fd dbg _ hc ih =>
      refine ⟨?_, ?_⟩
      · simp [NotificationBar.push_notification, if_pos hc, OriginOk]
      · simpa only [TipOk, NotificationBar.push_notification, if_pos hc] using ih.2
  | push_rej now e fd dbg _ hc ih =>
      simpa only [NotificationBar.push_notification, if_neg hc] using ih
  | tick_decay now c _ ht ih =>
      rename_i s o _
      have htip := ih.2
      refine ⟨⟨?_, ?_⟩, ?_⟩
      · rw [ui_current_level, if_pos ht]
      · rw [ui_message, if_pos ht]
        rcases htip with hn | ⟨t, htm, hts⟩
        · exact Or.inl (by simp [hn])
        · exact Or.inr ⟨t, htm, by simp [hts]⟩
      · simpa only [TipOk, ui_tip_message] using htip
  | tick_live now c _ ht ih =>
      rename_i s o _
      refine ⟨?_, by simpa only [TipOk, ui_tip_message] using ih.2⟩
      have hmsg : (s.ui now c).message = s.message := by rw [ui_message, if_neg ht]
      have hlvl : (s.ui now c).current_level = s.current_level := by
        rw [ui_current_level, if_neg ht]
      cases o with
      | some e => exact ⟨hmsg.trans ih.1.1, hlvl.trans ih.1.2⟩
      | none => exact ⟨hlvl.trans ih.1.1, hmsg ▸ ih.1.2⟩

/-- C1 counterexample: an event of severity `Info`, at least as severe as the
currently displayed event's `Debug` (accepted at instant 0), arrives via
`push_notification` at instant 1, well before the timeout, yet is not
displayed, because the threshold was raised to `Error` in the meantime and
admission rejects it.  This refutes the claim that such an event is displayed
regardless of anything but its severity relative to `current_level`. -/
theorem preemption_requires_admission_cex :
    ((((NotificationBar.new 0).push_notification 0 ⟨"dbg msg", LogSeverity.Debug⟩ false
          true).update_settings ⟨LogSeverity.Error, false⟩ 0).current_level
        ≤ (⟨"client connected", LogSeverity.Info⟩ : LogEntry).severity)
    ∧ (1 < (((NotificationBar.new 0).push_notification 0 ⟨"dbg msg", LogSeverity.Debug⟩ false
          true).update_settings ⟨LogSeverity.Error, false⟩ 0).receive_instant + TIMEOUT)
    ∧ ((((NotificationBar.new 0).push_notification 0 ⟨"dbg msg", LogSeverity.Debug⟩ false
          true).update_settings ⟨LogSeverity.Error, false⟩ 0).push_notification 1
            ⟨"client connected", LogSeverity.Info⟩ false true).message
        ≠ "client connected" := by
  decide

/-- C1 (amended): for every state and every event E2 whose severity is at
least `current_level` and at least the effective minimum severity for its
origin (admission), if E2 arrives via `push_notification` before
`receive_instant + TIMEOUT`, then E2 is displayed: `message` becomes E2's
content, `current_level` its severity, and `receive_instant` the arrival
time, regardless of how little time has elapsed. -/
theorem preemption_of_admitted (s : NotificationBar) (now : Nat) (e : LogEntry)
    (fd dbg : Bool)
    (hadm : min_severity fd dbg s.min_notification_level ≤ e.severity)
    (hsev : s.current_level ≤ e.severity)
    (_htime : now < s.receive_instant + TIMEOUT) :
    (s.push_notification now e fd dbg).message = e.content
    ∧ (s.push_notification now e fd dbg).current_level = e.severity
    ∧ (s.push_notification now e fd dbg).receive_instant = now := by
  have hc : PushCond s now e fd dbg := ⟨hadm, Or.inr hsev⟩
  simp [NotificationBar.push_notification, hc]

/-- Witness for the amended C1 at a concrete input. -/
theorem preemption_of_admitted_witness :
    ((NotificationBar.new 0).push_notification 1 ⟨"warn", LogSeverity.Warning⟩ false
        true).message = "warn"
    ∧ ((NotificationBar.new 0).push_notification 1 ⟨"warn", LogSeverity.Warning⟩ false
        true).current_level = LogSeverity.Warning
    ∧ ((NotificationBar.new 0).push_notification 1 ⟨"warn", LogSeverity.Warning⟩ false
        true).receive_instant = 1 :=
  preemption_of_admitted (NotificationBar.new 0) 1 ⟨"warn", LogSeverity.Warning⟩ false true
    (by decide) (by decide) (by decide)

/-- C2 counterexample: with "GPU error" of severity `Error` accepted at
instant 0, a render tick at instant `TIMEOUT` — exactly the timeout after
`receive_instant` — leaves the message and the level unchanged, because the
code tests `now > receive_instant + TIMEOUT` strictly. -/
theorem decay_boundary_cex :
    (((NotificationBar.new 0).push_notification 0 ⟨"GPU error", LogSeverity.Error⟩ false
          true).ui TIMEOUT false).message = "GPU error"
    ∧ (((NotificationBar.new 0).push_notification 0 ⟨"GPU error", LogSeverity.Error⟩ false
          true).ui TIMEOUT false).current_level = LogSeverity.Error := by
  decide

/-- C2 (amended): once strictly more than the timeout has elapsed since
`receive_instant` (`now > receive_instant + TIMEOUT`), the render tick
replaces the displayed message with `tip_message` if present, otherwise the
fixed idle string, and resets `current_level` to `Debug`. -/
theorem decay_after_timeout (s : NotificationBar) (now : Nat) (c : Bool)
    (h : s.receive_instant + TIMEOUT < now) :
    (s.ui now c).message = s.tip_message.getD NO_NOTIFICATIONS_MESSAGE
    ∧ (s.ui now c).current_level = LogSeverity.Debug :=
  ⟨by rw [ui_message, if_pos h], by rw [ui_current_level, if_pos h]⟩

/-- Witness for the amended C2 at a concrete input. -/
theorem decay_after_timeout_witness :
    ((NotificationBar.new 0).ui 5001 false).message
      = (NotificationBar.new 0).tip_message.getD NO_NOTIFICATIONS_MESSAGE
    ∧ ((NotificationBar.new 0).ui 5001 false).current_level = LogSeverity.Debug :=
  decay_after_timeout (NotificationBar.new 0) 5001 false (by decide)

/-- C3: every event whose severity is below `min_notification_level` and whose
origin is not the dashboard — or is the dashboard in a production build with
severity below `Info` — is dropped by `push_notification` with no state
change, regardless of elapsed time or `current_level`. -/
theorem admission_rejection (s : NotificationBar) (now : Nat) (e : LogEntry) (fd dbg : Bool)
    (h : (fd = false ∧ e.severity < s.min_notification_level)
        ∨ (fd = true ∧ dbg = false ∧ e.severity < LogSeverity.Info)) :
    s.push_notification now e fd dbg = s := by
  have hna : ¬PushCond s now e fd dbg := by
    intro hc
    have hadm := hc.1
    rcases h with ⟨hfd, hlt⟩ | ⟨hfd, hdbg, hlt⟩
    · subst hfd
      have hle : s.min_notification_level ≤ e.severity := by simpa [min_severity] using hadm
      rw [LogSeverity.le_def] at hle
      rw [LogSeverity.lt_def] at hlt
      omega
    · subst hfd; subst hdbg
      have hle : LogSeverity.Info ≤ e.severity := by simpa [min_severity] using hadm
      rw [LogSeverity.le_def] at hle
      rw [LogSeverity.lt_def] at hlt
      omega
  simp [NotificationBar.push_notification, hna]

/-- Witness for C3 at a concrete input: a dashboard-originated `Debug` event
in a production build is dropped. -/
theorem admission_rejection_witness :
    (NotificationBar.new 0).push_notification 3 ⟨"dbg msg 2", LogSeverity.Debug⟩ true false
      = NotificationBar.new 0 :=
  admission_rejection (NotificationBar.new 0) 3 ⟨"dbg msg 2", LogSeverity.Debug⟩ true false
    (Or.inr ⟨rfl, rfl, by decide⟩)

/-- C4: every event with severity strictly below `current_level` arriving
before `receive_instant + TIMEOUT` is dropped, and `message`, `current_level`
and `receive_instant` are all unchanged. -/
theorem drop_atomicity (s : NotificationBar) (now : Nat) (e : LogEntry) (fd dbg : Bool)
    (hsev : e.severity < s.current_level)
    (htime : now < s.receive_instant + TIMEOUT) :
    (s.push_notification now e fd dbg).message = s.message
    ∧ (s.push_notification now e fd dbg).current_level = s.current_level
    ∧ (s.push_notification now e fd dbg).receive_instant = s.receive_instant := by
  have hna : ¬PushCond s now e fd dbg := by
    intro hc
    rcases hc.2 with ht | hs
    · omega
    · rw [LogSeverity.le_def] at hs
      rw [LogSeverity.lt_def] at hsev
      omega
  simp [NotificationBar.push_notification, hna]

/-- Witness for C4 at a concrete input: an `Info` event 2 ms after a displayed
`Error` event is dropped. -/
theorem drop_atomicity_witness :
    (((NotificationBar.new 0).push_notification 0 ⟨"GPU error", LogSeverity.Error⟩ false
          true).push_notification 2 ⟨"info msg", LogSeverity.Info⟩ false true).message
      = ((NotificationBar.new 0).push_notification 0 ⟨"GPU error", LogSeverity.Error⟩ false
          true).message
    ∧ (((NotificationBar.new 0).push_notification 0 ⟨"GPU error", LogSeverity.Error⟩ false
          true).push_notification 2 ⟨"info msg", LogSeverity.Info⟩ false true).current_level
      = ((NotificationBar.new 0).push_notification 0 ⟨"GPU error", LogSeverity.Error⟩ false
          true).current_level
    ∧ (((NotificationBar.new 0).push_notification 0 ⟨"GPU error", LogSeverity.Error⟩ false
          true).push_notification 2 ⟨"info msg", LogSeverity.Info⟩ false true).receive_instant
      = ((NotificationBar.new 0).push_notification 0 ⟨"GPU error", LogSeverity.Error⟩ false
          true).receive_instant :=
  drop_atomicity _ 2 ⟨"info msg", LogSeverity.Info⟩ false true (by decide) (by decide)

/-- C5: with `from_dashboard = true` the effective minimum severity is `Debug`
in a development build and `Info` in a production build, independent of
`min_notification_level`; consequently, in a development build the acceptance
condition of `push_notification` for a dashboard-originated event degenerates
to the expiry-or-preemption disjunction — admission always passes, whatever
the threshold (including `Error`). -/
theorem dashboard_origin_threshold (lvl : LogSeverity) (e : LogEntry) :
    min_severity true true lvl = LogSeverity.Debug
    ∧ min_severity true false lvl = LogSeverity.Info
    ∧ (∀ (s : NotificationBar) (now : Nat),
        PushCond s now e true true ↔
          (s.receive_instant + TIMEOUT < now ∨ s.current_level ≤ e.severity)) :=
  ⟨rfl, rfl, fun _ _ => ⟨fun hc => hc.2, fun hp => ⟨Nat.zero_le _, hp⟩⟩⟩

/-- C6: in every state reachable from construction via any sequence of
`push_notification`, `update_settings` and render-tick operations,
`current_level` equals the severity of the event that produced the current
`message` (ghost-tracked by `Reach`), or is `Debug` when the message is the
idle string or the tip text. -/
theorem reachable_origin_invariant {s : NotificationBar} {o : Option LogEntry}
    (h : Reach s o) : OriginOk s o :=
  (reach_inv h).1

/-- Witness for C6 at the freshly constructed state. -/
theorem reachable_origin_invariant_witness :
    OriginOk (NotificationBar.new 0) none :=
  reachable_origin_invariant (Reach.init 0)

/-- C7: after `update_settings` with the tip feature disabled `tip_message` is
`none`; with the tip feature enabled it becomes a catalog string prefixed with
"Tip: " when it was previously `none`, and is kept unchanged otherwise; and
neither `push_notification` nor the render tick modifies `tip_message`. -/
theorem tip_lifecycle (s : NotificationBar) (cfg : LoggingConfig) (rng now : Nat)
    (e : LogEntry) (fd dbg c : Bool) :
    (cfg.show_notification_tip = false → (s.update_settings cfg rng).tip_message = none)
    ∧ (cfg.show_notification_tip = true → s.tip_message = none →
        ∃ t ∈ NOTIFICATION_TIPS,
          (s.update_settings cfg rng).tip_message = some ("Tip: " ++ t))
    ∧ (cfg.show_notification_tip = true → s.tip_message ≠ none →
        (s.update_settings cfg rng).tip_message = s.tip_message)
    ∧ (s.push_notification now e fd dbg).tip_message = s.tip_message
    ∧ (s.ui now c).tip_message = s.tip_message := by
  refine ⟨?_, ?_, ?_, ?_, ui_tip_message s now c⟩
  · intro hf
    rw [update_settings_tip_message, hf]
    simp
  · intro ht hn
    obtain ⟨x, hx, hcx⟩ := listChoose_of_ne_nil rng NOTIFICATION_TIPS_length_ne_zero
    exact ⟨x, hx, by rw [update_settings_tip_message]; simp [ht, hn, hcx]⟩
  · intro ht hn
    rw [update_settings_tip_message]
    simp [ht, hn]
  · unfold NotificationBar.push_notification
    split <;> rfl

/-- Witness for C7 at concrete inputs, covering the enable-from-`none`,
disable, and already-set branches. -/
theorem tip_lifecycle_witness :
    (∃ t ∈ NOTIFICATION_TIPS,
        ((NotificationBar.new 0).update_settings ⟨LogSeverity.Debug, true⟩ 0).tip_message
          = some ("Tip: " ++ t))
    ∧ ((NotificationBar.new 0).update_settings ⟨LogSeverity.Debug, false⟩ 0).tip_message = none
    ∧ (((NotificationBar.new 0).update_settings ⟨LogSeverity.Debug, true⟩ 0).update_settings
          ⟨LogSeverity.Debug, true⟩ 7).tip_message
        = ((NotificationBar.new 0).update_settings ⟨LogSeverity.Debug, true⟩ 0).tip_message :=
  ⟨(tip_lifecycle (NotificationBar.new 0) ⟨LogSeverity.Debug, true⟩ 0 0
      ⟨"x", LogSeverity.Debug⟩ false true false).2.1 rfl rfl,
   (tip_lifecycle (NotificationBar.new 0) ⟨LogSeverity.Debug, false⟩ 0 0
      ⟨"x", LogSeverity.Debug⟩ false true false).1 rfl,
   (tip_lifecycle ((NotificationBar.new 0).update_settings ⟨LogSeverity.Debug, true⟩ 0)
      ⟨LogSeverity.Debug, true⟩ 7 0 ⟨"x", LogSeverity.Debug⟩ false true false).2.2.1 rfl
      (by decide)⟩

/-- C8: when `tip_message` is already set, `update_settings` is idempotent:
calling it twice with the same configuration snapshot (whatever the two rng
draws are) yields the same state as calling it once. -/
theorem update_settings_idempotent (s : NotificationBar) (cfg : LoggingConfig) (r1 r2 : Nat)
    (h : s.tip_message ≠ none) :
    (s.update_settings cfg r1).update_settings cfg r2 = s.update_settings cfg r1 := by
  obtain ⟨m, cl, ri, mn, tm, ex⟩ := s
  obtain ⟨lvl, tf⟩ := cfg
  cases tm <;> cases tf <;> simp_all [NotificationBar.update_settings]

/-- Witness for C8 at a concrete input with an already-selected tip. -/
theorem update_settings_idempotent_witness :
    ((((NotificationBar.new 0).update_settings ⟨LogSeverity.Debug, true⟩ 0).update_settings
          ⟨LogSeverity.Info, true⟩ 3).update_settings ⟨LogSeverity.Info, true⟩ 9)
      = (((NotificationBar.new 0).update_settings ⟨LogSeverity.Debug, true⟩ 0).update_settings
          ⟨LogSeverity.Info, true⟩ 3) :=
  update_settings_idempotent ((NotificationBar.new 0).update_settings
    ⟨LogSeverity.Debug, true⟩ 0) ⟨LogSeverity.Info, true⟩ 3 9 (by decide)

/-- C9: the render tick never modifies `receive_instant`, and past expiry
repeated ticks with no intervening ingestion re-select the same fallback,
leaving `message` and `current_level` exactly as the first post-expiry tick
set them. -/
theorem decay_frame_idempotent (s : NotificationBar) (now now2 : Nat) (c c2 : Bool) :
    (s.ui now c).receive_instant = s.receive_instant
    ∧ (s.receive_instant + TIMEOUT < now → s.receive_instant + TIMEOUT < now2 →
        ((s.ui now c).ui now2 c2).message = (s.ui now c).message
        ∧ ((s.ui now c).ui now2 c2).current_level = (s.ui now c).current_level) := by
  refine ⟨ui_receive_instant s now c, fun h1 h2 => ?_⟩
  have hri : (s.ui now c).receive_instant = s.receive_instant := ui_receive_instant s now c
  have htip : (s.ui now c).tip_message = s.tip_message := ui_tip_message s now c
  have h2' : (s.ui now c).receive_instant + TIMEOUT < now2 := by rw [hri]; exact h2
  constructor
  · rw [ui_message _ now2 c2, if_pos h2', htip, ui_message _ now c, if_pos h1]
  · rw [ui_current_level _ now2 c2, if_pos h2', ui_current_level _ now c, if_pos h1]

/-- Witness for C9 at concrete inputs past expiry. -/
theorem decay_frame_idempotent_witness :
    ((NotificationBar.new 0).ui 6000 false).receive_instant
      = (NotificationBar.new 0).receive_instant
    ∧ ((((NotificationBar.new 0).ui 6000 false).ui 7000 true).message
        = ((NotificationBar.new 0).ui 6000 false).message
      ∧ (((NotificationBar.new 0).ui 6000 false).ui 7000 true).current_level
        = ((NotificationBar.new 0).ui 6000 false).current_level) :=
  ⟨(decay_frame_idempotent (NotificationBar.new 0) 6000 7000 false true).1,
   (decay_frame_idempotent (NotificationBar.new 0) 6000 7000 false true).2
     (by decide) (by decide)⟩

/-- C10: `update_settings` leaves `message`, `current_level`,
`receive_instant` and `expanded` unchanged, for every state and every
configuration snapshot — in particular raising the threshold above the
severity of the displayed message does not remove or alter it. -/
theorem update_settings_frame (s : NotificationBar) (cfg : LoggingConfig) (rng : Nat) :
    (s.update_settings cfg rng).message = s.message
    ∧ (s.update_settings cfg rng).current_level = s.current_level
    ∧ (s.update_settings cfg rng).receive_instant = s.receive_instant
    ∧ (s.update_settings cfg rng).expanded = s.expanded :=
  ⟨update_settings_message s cfg rng, update_settings_current_level s cfg rng,
    update_settings_receive_instant s cfg rng, update_settings_expanded s cfg rng⟩
